import Mathlib

/-!
Shallow embedding of `jigsaws_data_visualisation.py`
(class `JIGSAWS3DVideoGeneratorEnhanced`), with theorems checking the
specification's claims about the annotation loader, the gesture lookup,
the manipulator-column extraction, the animation overlay and trail window,
the video-writer selection, and the top-level orchestration.

Scalars from the kinematics table are modelled as rationals; strings,
lists and options mirror the Python values directly.
-/

namespace JIGSAWS

/-- One parsed transcription line: `[start_frame, end_frame, gesture_id]`
as appended at line 100 of the source. -/
structure GestureInterval where
  start_frame : Int
  end_frame : Int
  gesture_id : Int
deriving DecidableEq, Repr

/-- Models Python `int(s)` on ordinary tokens (characters given as a
list): an optional single sign followed by one or more ASCII digits parses
to the signed value, anything else raises `ValueError` (here: `none`). -/
def pyInt (t : List Char) : Option Int :=
  let core : List Char → Int → Option Int := fun t sign =>
    if t ≠ [] ∧ t.all Char.isDigit then
      some (sign * ((t.foldl (fun a c => a * 10 + (c.toNat - 48)) 0 : Nat) : Int))
    else none
  match t with
  | '-' :: rest => core rest (-1)
  | '+' :: rest => core rest 1
  | l => core l 1

/-- Python `line.strip()` on the character list: drop leading and trailing
whitespace. -/
def pyStrip (l : List Char) : List Char :=
  ((l.dropWhile Char.isWhitespace).reverse.dropWhile Char.isWhitespace).reverse

/-- Python `line.split()` on the character list: split on whitespace runs,
dropping empty tokens. -/
def pySplit (l : List Char) : List (List Char) :=
  (l.foldr
    (fun c acc =>
      if c.isWhitespace then [] :: acc
      else
        match acc with
        | [] => [[c]]
        | w :: ws => (c :: w) :: ws)
    [[]]).filter (fun w => w ≠ [])

/-- One iteration of the transcription-reading loop in `load_data`
(source lines 81-103): strip the line, skip it when blank, require at
least 3 whitespace tokens, parse tokens 0 and 1 as integers, parse token 2
as a gesture id (stripping a leading `G` when present), and skip the line
on any parse failure. -/
def parseLine (line : String) : Option GestureInterval :=
  let l := pyStrip line.toList
  if l = [] then none
  else
    let parts := pySplit l
    if parts.length ≥ 3 then
      match pyInt (parts.getD 0 []), pyInt (parts.getD 1 []) with
      | some start_frame, some end_frame =>
        let gesture_str := parts.getD 2 []
        match gesture_str with
        | 'G' :: rest =>
          match pyInt rest with
          | some gesture_id => some ⟨start_frame, end_frame, gesture_id⟩
          | none => none
        | _ =>
          match pyInt gesture_str with
          | some gesture_id => some ⟨start_frame, end_frame, gesture_id⟩
          | none => none
      | _, _ => none
    else none

/-- The accumulation of `transcriptions.append(...)` over the whole file
(source lines 79-103): a fold over the lines, appending each parsed line. -/
def readTranscriptions (lines : List String) : List GestureInterval :=
  lines.foldl
    (fun acc line =>
      match parseLine line with
      | some iv => acc ++ [iv]
      | none => acc)
    []

/-- The final step of transcription loading (source lines 105-110): an
empty result list is stored as the absent state `None`, a non-empty list
is kept. -/
def transcriptionsOf (lines : List String) : Option (List GestureInterval) :=
  let t := readTranscriptions lines
  if t = [] then none else some t

/-- JIGSAWS standard frame rate, `self.fps = 30` (source line 31). -/
def fps : ℚ := 30

/-- `self.trail_length = 150` (source line 35). -/
def trail_length : Int := 150

/-- Row access `row[j]`; rows of a valid kinematics table have 76 columns,
out-of-range access defaults to 0 in the model. -/
def col (row : List ℚ) (j : Nat) : ℚ := row.getD j 0

/-- Column projection `data[:, cols]`. -/
def project (data : List (List ℚ)) (cols : List Nat) : List (List ℚ) :=
  data.map (fun row => cols.map (col row))

/-- Single-column projection `data[:, j]`. -/
def projectOne (data : List (List ℚ)) (j : Nat) : List ℚ :=
  data.map (fun row => col row j)

/-- `np.arange(len(data)) / self.fps` (source line 149). -/
def timeColumn (n : Nat) : List ℚ :=
  (List.range n).map (fun i : Nat => (i : ℚ) / fps)

/-- The dictionary returned by `extract_manipulator_data`
(source lines 145-150). -/
structure ManipulatorBundle where
  positions : List (List ℚ)
  velocities : List (List ℚ)
  gripper : List ℚ
  time : List ℚ
deriving DecidableEq, Repr

/-- `extract_manipulator_data` (source lines 120-150): `None` when the
kinematics table is absent, otherwise the fixed column projection selected
by the role string, `None` for an unrecognized role. -/
def extract_manipulator_data (kinematics_data : Option (List (List ℚ)))
    (manipulator_type : String) : Option ManipulatorBundle :=
  match kinematics_data with
  | none => none
  | some data =>
    let build : List Nat → List Nat → Nat → Option ManipulatorBundle :=
      fun pos_cols vel_cols gripper_col =>
        some { positions := project data pos_cols
             , velocities := project data vel_cols
             , gripper := projectOne data gripper_col
             , time := timeColumn data.length }
    if manipulator_type = "master_left" then build [0, 1, 2] [12, 13, 14] 18
    else if manipulator_type = "master_right" then build [19, 20, 21] [31, 32, 33] 37
    else if manipulator_type = "slave_right" then build [38, 39, 40] [50, 51, 52] 56
    else if manipulator_type = "slave_left" then build [57, 58, 59] [69, 70, 71] 75
    else none

/-- The gesture dictionary (source lines 285-300): ids 1-6 and 8-15 have
descriptions, id 7 is absent. -/
def gestures (gesture_id : Int) : Option String :=
  if gesture_id = 1 then some "Reaching for needle"
  else if gesture_id = 2 then some "Positioning needle/tool"
  else if gesture_id = 3 then some "Pushing needle through tissue"
  else if gesture_id = 4 then some "Transferring needle L<->R"
  else if gesture_id = 5 then some "Moving to center"
  else if gesture_id = 6 then some "Pulling suture"
  else if gesture_id = 8 then some "Orienting needle"
  else if gesture_id = 9 then some "Tightening suture"
  else if gesture_id = 10 then some "Loosening suture"
  else if gesture_id = 11 then some "Dropping/completing"
  else if gesture_id = 12 then some "Knot tying motion"
  else if gesture_id = 13 then some "Knot securing"
  else if gesture_id = 14 then some "Knot tightening"
  else if gesture_id = 15 then some "Final knot adjustment"
  else none

/-- `gestures.get(gesture_id, f"Gesture {gesture_id}")` (source line 308). -/
def gestureLabel (gesture_id : Int) : String :=
  (gestures gesture_id).getD ("Gesture " ++ toString gesture_id)

/-- The scan loop of `get_current_gesture` (source lines 306-309): return
the label of the first interval containing the frame, else "Transition". -/
def gestureScan (frame_idx : Int) : List GestureInterval → String
  | [] => "Transition"
  | iv :: rest =>
    if iv.start_frame ≤ frame_idx ∧ frame_idx ≤ iv.end_frame then
      gestureLabel iv.gesture_id
    else gestureScan frame_idx rest

/-- `get_current_gesture` (source lines 302-309). -/
def get_current_gesture (transcriptions_data : Option (List GestureInterval))
    (frame_idx : Int) : String :=
  match transcriptions_data with
  | none => "No gesture data"
  | some ivs => gestureScan frame_idx ivs

/-- The trail computation in `animate` (source lines 313-323):
`trail_start = max(0, frame - trail_length)`, `trail_end = frame + 1`,
and the trail line is set to `positions[trail_start:trail_end]` only when
`trail_end > trail_start`; otherwise nothing is rendered (`none`).
Python slicing with `0 ≤ trail_start ≤ trail_end` is drop-then-take. -/
def animateTrail (positions : List (List ℚ)) (frame : Int) :
    Option (List (List ℚ)) :=
  let trail_start := max 0 (frame - trail_length)
  let trail_end := frame + 1
  if trail_end > trail_start then
    some ((positions.drop trail_start.toNat).take (trail_end - trail_start).toNat)
  else none

/-- The half-open slice `[a, b)` of a sequence, following the spec's
wording for the trail window (compared against `animateTrail`). -/
def sliceSpec (xs : List (List ℚ)) (a b : Nat) : List (List ℚ) :=
  (xs.drop a).take (b - a)

/-- The numeric content of the time/progress overlay built in `animate`
(source lines 349-351): the elapsed time `time[frame]`, the frame index
shown, the denominator `len(positions) - 1` shown next to it, and the
percentage `frame / len(positions) * 100`. -/
structure TimeOverlay where
  current_time : ℚ
  frameShown : Nat
  frameDenomShown : Nat
  progress : ℚ
deriving DecidableEq, Repr

/-- Builds the time/progress overlay of `animate` from the extracted
bundle (source lines 342 and 349-351). -/
def animateTimeOverlay (timeSeq : List ℚ) (positionsLen : Nat) (frame : Nat) :
    TimeOverlay :=
  { current_time := timeSeq.getD frame 0
  , frameShown := frame
  , frameDenomShown := positionsLen - 1
  , progress := (frame : ℚ) / (positionsLen : ℚ) * 100 }

/-- The spec's formula for the percentage progress:
`frame / (frame_count - 1) * 100` (compared against the code's
`animateTimeOverlay`). -/
def progressSpec (frame frame_count : Nat) : ℚ :=
  (frame : ℚ) / ((frame_count : ℚ) - 1) * 100

/-- Helper for `pyReplace`: structural recursion on a fuel bound (the
string length suffices, since every step consumes at least one character
of the remaining input when the pattern is non-empty). -/
def replaceAllAux : Nat → List Char → List Char → List Char → List Char
  | 0, s, _, _ => s
  | _, [], _, _ => []
  | fuel + 1, c :: rest, pat, rep =>
    if pat ≠ [] ∧ pat.isPrefixOf (c :: rest) then
      rep ++ replaceAllAux fuel ((c :: rest).drop pat.length) pat rep
    else c :: replaceAllAux fuel rest pat rep

/-- Models Python `s.replace(old, new)`: replace every non-overlapping
occurrence of `old`, scanning left to right. -/
def pyReplace (s old new : String) : String :=
  ⟨replaceAllAux s.toList.length s.toList old.toList new.toList⟩

/-- The two encoding backends tried by `get_best_video_writer`. -/
inductive VideoWriter
  | ffmpeg
  | pillow
deriving DecidableEq, Repr

/-- Environment for `get_best_video_writer`: which writer names
`animation.writers.list()` reports, and whether constructing each backend
succeeds (a raised exception during construction is `false`). -/
structure WriterEnv where
  available : List String
  ffmpegConstructs : Bool
  pillowConstructs : Bool

/-- `get_best_video_writer` (source lines 152-178): try ffmpeg first and
keep the original filename; on unavailability or construction failure try
pillow with the `.mp4` → `.gif` substituted filename; otherwise report no
writer with the filename unchanged. -/
def get_best_video_writer (env : WriterEnv) (output_filename : String) :
    Option VideoWriter × String :=
  if "ffmpeg" ∈ env.available ∧ env.ffmpegConstructs then
    (some VideoWriter.ffmpeg, output_filename)
  else if "pillow" ∈ env.available ∧ env.pillowConstructs then
    (some VideoWriter.pillow, pyReplace output_filename ".mp4" ".gif")
  else
    (none, output_filename)

/-- The writer-selection and save phase of
`create_combined_trajectory_video` (source lines 370-389): when no writer
is available the render returns failure after closing the figure; with a
writer, success is that of `anim.save`, and the figure is closed in the
`finally` block either way. The pair is (render succeeded, figure closed). -/
def videoSavePhase (env : WriterEnv) (output_filename : String)
    (saveSucceeds : Bool) : Bool × Bool :=
  match get_best_video_writer env output_filename with
  | (none, _) => (false, true)
  | (some _, _) => (saveSucceeds, true)

/-- `load_data` (source lines 59-118): kinematics loading (file present
and parseable, modelled by the `Option` input) decides the return value
and happens first; transcription loading is attempted only afterwards and
never changes the return value — a missing/erroring file or an all-invalid
file both leave the absent state. Returns
(return value, kinematics_data, transcriptions_data). -/
def load_data (kin : Option (List (List ℚ))) (annotLines : Option (List String)) :
    Bool × Option (List (List ℚ)) × Option (List GestureInterval) :=
  match kin with
  | none => (false, none, none)
  | some data =>
    let transcriptions_data :=
      match annotLines with
      | none => none
      | some lines => transcriptionsOf lines
    (true, some data, transcriptions_data)

/-- `create_all_videos` (source lines 391-438): abort with failure when
`load_data` fails (no render attempted); otherwise attempt the master and
the slave render (their outcomes are the two booleans) and succeed iff
`success_count > 0`. The pair is (overall success, renders attempted). -/
def create_all_videos (kin : Option (List (List ℚ)))
    (annotLines : Option (List String)) (masterOk slaveOk : Bool) :
    Bool × Nat :=
  if (load_data kin annotLines).1 = false then (false, 0)
  else
    let success_count := (if masterOk then 1 else 0) + (if slaveOk then 1 else 0)
    (decide (success_count > 0), 2)

end JIGSAWS

namespace JIGSAWS

theorem readTranscriptions_go (lines : List String) (acc : List GestureInterval) :
    lines.foldl
      (fun acc line =>
        match parseLine line with
        | some iv => acc ++ [iv]
        | none => acc)
      acc = acc ++ lines.filterMap parseLine := by
  induction lines generalizing acc with
  | nil => simp
  | cons l rest ih =>
    simp only [List.foldl_cons, List.filterMap_cons]
    cases parseLine l with
    | none => simpa using ih acc
    | some iv => simpa using ih (acc ++ [iv])

/-- The transcription loop is exactly a per-line filterMap: lines are
processed independently and failures are simply dropped. -/
theorem readTranscriptions_eq_filterMap (lines : List String) :
    readTranscriptions lines = lines.filterMap parseLine := by
  simpa using readTranscriptions_go lines []

/-- The spec-side containment predicate for the gesture scan:
`start_frame ≤ f ≤ end_frame`. -/
def containsFrame (frame_idx : Int) (iv : GestureInterval) : Bool :=
  decide (iv.start_frame ≤ frame_idx) && decide (frame_idx ≤ iv.end_frame)

theorem gestureScan_eq_find (frame_idx : Int) (ivs : List GestureInterval) :
    gestureScan frame_idx ivs =
      match ivs.find? (containsFrame frame_idx) with
      | some iv => gestureLabel iv.gesture_id
      | none => "Transition" := by
  induction ivs with
  | nil => rfl
  | cons iv rest ih =>
    by_cases h : iv.start_frame ≤ frame_idx ∧ frame_idx ≤ iv.end_frame
    · have hc : containsFrame frame_idx iv = true := by
        simp [containsFrame, h.1, h.2]
      simp [gestureScan, h, List.find?_cons, hc]
    · have hc : containsFrame frame_idx iv = false := by
        simp [containsFrame]
        omega
      simp [gestureScan, h, List.find?_cons, hc, ih]

theorem transcriptionsOf_getD (lines : List String) :
    (transcriptionsOf lines).getD [] = readTranscriptions lines := by
  by_cases h : readTranscriptions lines = [] <;> simp [transcriptionsOf, h]

theorem timeColumn_getD (n i : Nat) (h : i < n) :
    (timeColumn n).getD i 0 = (i : ℚ) / fps := by
  unfold timeColumn
  rw [List.getD_eq_getElem?_getD, List.getElem?_map, List.getElem?_range h]
  rfl

/-- C3: the gesture lookup returns the fixed "No gesture data" label when
the interval sequence is absent (and an annotation file in which no line
parses yields that absent state); otherwise it returns the label of the
first interval in file order whose inclusive range contains the frame
(first match wins, no sortedness or disjointness assumed), and the fixed
"Transition" label when no interval contains the frame. -/
theorem gesture_lookup_contract (f : Int) (ivs : List GestureInterval)
    (lines : List String) :
    get_current_gesture none f = "No gesture data" ∧
    (readTranscriptions lines = [] →
      get_current_gesture (transcriptionsOf lines) f = "No gesture data") ∧
    get_current_gesture (some ivs) f =
      (match ivs.find? (containsFrame f) with
       | some iv => gestureLabel iv.gesture_id
       | none => "Transition") := by
  refine ⟨rfl, ?_, gestureScan_eq_find f ivs⟩
  intro h
  simp [transcriptionsOf, h, get_current_gesture]

theorem gesture_lookup_contract_witness :
    get_current_gesture (transcriptionsOf ["abc def G1"]) 3 = "No gesture data" ∧
    get_current_gesture (some [⟨5, 9, 1⟩, ⟨0, 3, 4⟩, ⟨2, 6, 6⟩]) 3
      = "Transferring needle L<->R" := by
  constructor
  · exact (gesture_lookup_contract 3 [] ["abc def G1"]).2.1 (by decide)
  · have h := (gesture_lookup_contract 3 [⟨5, 9, 1⟩, ⟨0, 3, 4⟩, ⟨2, 6, 6⟩] []).2.2
    rw [h]
    decide

theorem gestures_eq_none (g : Int) (h : ¬((1 ≤ g ∧ g ≤ 6) ∨ (8 ≤ g ∧ g ≤ 15))) :
    gestures g = none := by
  unfold gestures
  repeat rw [if_neg (show ¬ _ = _ by omega)]

/-- C10: the gesture-description table covers exactly the ids 1-6 and
8-15 (id 7 is absent), so a frame whose first matching interval carries
gesture id 7 gets the generic fallback label "Gesture 7". -/
theorem gesture_seven_fallback (f : Int) (ivs : List GestureInterval)
    (iv : GestureInterval) :
    gestures 7 = none ∧
    (∀ g : Int, (gestures g).isSome = true ↔ ((1 ≤ g ∧ g ≤ 6) ∨ (8 ≤ g ∧ g ≤ 15))) ∧
    (ivs.find? (containsFrame f) = some iv → iv.gesture_id = 7 →
      get_current_gesture (some ivs) f = "Gesture 7") := by
  refine ⟨rfl, ?_, ?_⟩
  · intro g
    constructor
    · intro hs
      by_contra hng
      rw [gestures_eq_none g hng] at hs
      simp at hs
    · intro hg
      rcases hg with ⟨h1, h2⟩ | ⟨h1, h2⟩ <;> interval_cases g <;> rfl
  · intro hfind h7
    have hscan := gestureScan_eq_find f ivs
    simp only [get_current_gesture, hscan, hfind, h7]
    decide

theorem gesture_seven_fallback_witness :
    get_current_gesture (some [⟨0, 10, 7⟩]) 5 = "Gesture 7" :=
  (gesture_seven_fallback 5 [⟨0, 10, 7⟩] ⟨0, 10, 7⟩).2.2 (by decide) rfl

/-- C2 counterexample: the loader admits the line "5 3 G1" verbatim, so
the produced interval has start_frame 5 greater than end_frame 3 —
reversed lines are not filtered out. -/
theorem loader_admits_reversed_interval :
    GestureInterval.mk 5 3 1 ∈ (transcriptionsOf ["5 3 G1"]).getD [] ∧
    ¬ (GestureInterval.mk 5 3 1).start_frame ≤ (GestureInterval.mk 5 3 1).end_frame := by
  decide

/-- C2 (amended): every interval produced by the annotation loader is the
verbatim parse of some input line — its start and end frames are tokens 0
and 1 of that line as parsed, with no `start_frame ≤ end_frame` filtering
applied. -/
theorem loader_intervals_from_lines (lines : List String) (iv : GestureInterval)
    (h : iv ∈ (transcriptionsOf lines).getD []) :
    ∃ l ∈ lines, parseLine l = some iv := by
  rw [transcriptionsOf_getD, readTranscriptions_eq_filterMap] at h
  exact List.mem_filterMap.mp h

theorem loader_intervals_from_lines_witness :
    ∃ l ∈ ["5 3 G1"], parseLine l = some ⟨5, 3, 1⟩ :=
  loader_intervals_from_lines ["5 3 G1"] ⟨5, 3, 1⟩ (by decide)

/-- C5: the loader treats lines independently — the whole loop is a
per-line filterMap; blank lines, short lines and unparseable lines are
skipped (concrete cases shown), well-formed lines parse with and without
the `G` prefix, and a file in which every line is skipped yields the
absent-annotation state rather than an error. -/
theorem loader_line_robustness :
    (∀ lines : List String, readTranscriptions lines = lines.filterMap parseLine) ∧
    parseLine "" = none ∧
    parseLine " \t " = none ∧
    parseLine "1 2" = none ∧
    parseLine "abc def G1" = none ∧
    parseLine "12 30 G4" = some ⟨12, 30, 4⟩ ∧
    parseLine "12 30 4" = some ⟨12, 30, 4⟩ ∧
    (∀ lines : List String, (∀ l ∈ lines, parseLine l = none) →
      transcriptionsOf lines = none) := by
  refine ⟨readTranscriptions_eq_filterMap, by decide, by decide, by decide, by decide,
    by decide, by decide, ?_⟩
  intro lines h
  have : readTranscriptions lines = [] := by
    rw [readTranscriptions_eq_filterMap]
    exact List.filterMap_eq_nil_iff.mpr h
  simp [transcriptionsOf, this]

theorem loader_line_robustness_witness :
    transcriptionsOf ["abc def G1", "", "7 2"] = none :=
  loader_line_robustness.2.2.2.2.2.2.2 ["abc def G1", "", "7 2"] (by decide)

/-- C1 counterexample: with a 2-row table, at frame 1 the overlay shows
`1 / 2 * 100 = 50` percent, while the spec formula
`frame / (frame_count - 1) * 100` gives `1 / 1 * 100 = 100` percent. -/
theorem progress_overlay_counterexample :
    (animateTimeOverlay (timeColumn 2) 2 1).progress ≠ progressSpec 1 2 := by
  simp [animateTimeOverlay, progressSpec]
  norm_num

/-- C1 (amended): for every frame `f < frame_count`, the overlay built by
`animate` from an extracted bundle shows elapsed time `f / fps`, frame
denominator `frame_count - 1`, and percentage progress
`f / frame_count * 100` (the divisor is the row count, not the row count
minus one). -/
theorem progress_overlay_amended (table : List (List ℚ)) (b : ManipulatorBundle)
    (f : Nat) (hb : extract_manipulator_data (some table) "master_left" = some b)
    (hf : f < table.length) :
    (animateTimeOverlay b.time b.positions.length f).current_time = (f : ℚ) / fps ∧
    (animateTimeOverlay b.time b.positions.length f).frameShown = f ∧
    (animateTimeOverlay b.time b.positions.length f).frameDenomShown = table.length - 1 ∧
    (animateTimeOverlay b.time b.positions.length f).progress
      = (f : ℚ) / (table.length : ℚ) * 100 := by
  have hb2 : b = ⟨project table [0, 1, 2], project table [12, 13, 14],
      projectOne table 18, timeColumn table.length⟩ := by
    simp only [extract_manipulator_data, if_pos rfl] at hb
    exact (Option.some.inj hb).symm
  subst hb2
  refine ⟨?_, rfl, ?_, ?_⟩
  · simp only [animateTimeOverlay]
    exact timeColumn_getD table.length f hf
  · simp [animateTimeOverlay, project]
  · simp [animateTimeOverlay, project]

theorem progress_overlay_amended_witness :
    (animateTimeOverlay
      (⟨project [[5, 6, 7]] [0, 1, 2], project [[5, 6, 7]] [12, 13, 14],
        projectOne [[5, 6, 7]] 18, timeColumn 1⟩ : ManipulatorBundle).time
      (⟨project [[5, 6, 7]] [0, 1, 2], project [[5, 6, 7]] [12, 13, 14],
        projectOne [[5, 6, 7]] 18, timeColumn 1⟩ : ManipulatorBundle).positions.length
      0).progress = (0 : ℚ) / ((1 : Nat) : ℚ) * 100 :=
  (progress_overlay_amended [[5, 6, 7]]
    ⟨project [[5, 6, 7]] [0, 1, 2], project [[5, 6, 7]] [12, 13, 14],
      projectOne [[5, 6, 7]] 18, timeColumn 1⟩ 0 rfl (by decide)).2.2.2

/-- C4: for every frame `f` with `0 ≤ f < frame_count` (hence also for
`f = 0` and `f = frame_count - 1`), `animate` renders exactly the
half-open slice `[max(0, f - 150), f + 1)` of the position sequence, that
window is non-empty, and whenever `trail_end ≤ trail_start` the guard
renders nothing instead of failing. -/
theorem trail_window_exact (positions : List (List ℚ)) (f : Nat)
    (hf : f < positions.length) :
    animateTrail positions (f : Int)
      = some (sliceSpec positions (max 0 (f - 150)) (f + 1)) ∧
    sliceSpec positions (max 0 (f - 150)) (f + 1) ≠ [] ∧
    (∀ g : Int, g + 1 ≤ max 0 (g - trail_length) → animateTrail positions g = none) := by
  refine ⟨?_, ?_, ?_⟩
  · unfold animateTrail sliceSpec
    rw [if_pos (by simp only [trail_length]; omega)]
    have h1 : (max 0 ((f : Int) - trail_length)).toNat = max 0 (f - 150) := by
      simp only [trail_length]; omega
    have h2 : ((f : Int) + 1 - max 0 ((f : Int) - trail_length)).toNat
        = f + 1 - max 0 (f - 150) := by
      simp only [trail_length]; omega
    rw [h1, h2]
  · unfold sliceSpec
    have hlen : ((positions.drop (max 0 (f - 150))).take (f + 1 - max 0 (f - 150))).length
        = min (f + 1 - max 0 (f - 150)) (positions.length - max 0 (f - 150)) := by
      simp
    intro hnil
    rw [hnil] at hlen
    simp at hlen
    omega
  · intro g hg
    unfold animateTrail
    rw [if_neg (by omega)]

theorem trail_window_exact_witness :
    animateTrail [[1, 2, 3], [4, 5, 6]] ((1 : Nat) : Int)
      = some (sliceSpec [[1, 2, 3], [4, 5, 6]] (max 0 (1 - 150)) (1 + 1)) ∧
    animateTrail [[1, 2, 3], [4, 5, 6]] (-1) = none :=
  ⟨(trail_window_exact [[1, 2, 3], [4, 5, 6]] 1 (by decide)).1,
   (trail_window_exact [[1, 2, 3], [4, 5, 6]] 1 (by decide)).2.2 (-1) (by decide)⟩

/-- C6: manipulator extraction is the fixed column projection of the
kinematics table — positions 0-2 / velocities 12-14 / gripper 18 for
master-left, 19-21 / 31-33 / 37 for master-right, 38-40 / 50-52 / 56 for
slave-right, 57-59 / 69-71 / 75 for slave-left; reconstructing the raw
position columns from the master-left bundle returns columns 0-2
unchanged; an absent table or an unrecognized role yields `none`, not an
error. -/
theorem manipulator_projection (t : List (List ℚ)) (role : String) :
    extract_manipulator_data none role = none ∧
    (role ∉ (["master_left", "master_right", "slave_right", "slave_left"] : List String) →
      extract_manipulator_data (some t) role = none) ∧
    (∀ b, extract_manipulator_data (some t) "master_left" = some b →
      b.positions = project t [0, 1, 2] ∧ b.velocities = project t [12, 13, 14] ∧
      b.gripper = projectOne t 18 ∧
      ∀ j, j < 3 → b.positions.map (fun p => p.getD j 0) = projectOne t j) ∧
    (∀ b, extract_manipulator_data (some t) "master_right" = some b →
      b.positions = project t [19, 20, 21] ∧ b.velocities = project t [31, 32, 33] ∧
      b.gripper = projectOne t 37) ∧
    (∀ b, extract_manipulator_data (some t) "slave_right" = some b →
      b.positions = project t [38, 39, 40] ∧ b.velocities = project t [50, 51, 52] ∧
      b.gripper = projectOne t 56) ∧
    (∀ b, extract_manipulator_data (some t) "slave_left" = some b →
      b.positions = project t [57, 58, 59] ∧ b.velocities = project t [69, 70, 71] ∧
      b.gripper = projectOne t 75) := by
  refine ⟨rfl, ?_, ?_, ?_, ?_, ?_⟩
  · intro hrole
    simp only [List.mem_cons, List.not_mem_nil, or_false, not_or] at hrole
    obtain ⟨h1, h2, h3, h4⟩ := hrole
    simp [extract_manipulator_data, h1, h2, h3, h4]
  · intro b hb
    simp only [extract_manipulator_data, if_pos rfl] at hb
    obtain rfl := (Option.some.inj hb).symm
    refine ⟨rfl, rfl, rfl, ?_⟩
    intro j hj
    interval_cases j <;> simp [project, projectOne, List.map_map, Function.comp, col]
  · intro b hb
    simp only [extract_manipulator_data] at hb
    rw [if_neg (show ¬ "master_right" = "master_left" by decide), if_pos trivial] at hb
    obtain rfl := (Option.some.inj hb).symm
    exact ⟨rfl, rfl, rfl⟩
  · intro b hb
    simp only [extract_manipulator_data] at hb
    rw [if_neg (show ¬ "slave_right" = "master_left" by decide),
      if_neg (show ¬ "slave_right" = "master_right" by decide), if_pos trivial] at hb
    obtain rfl := (Option.some.inj hb).symm
    exact ⟨rfl, rfl, rfl⟩
  · intro b hb
    simp only [extract_manipulator_data] at hb
    rw [if_neg (show ¬ "slave_left" = "master_left" by decide),
      if_neg (show ¬ "slave_left" = "master_right" by decide),
      if_neg (show ¬ "slave_left" = "slave_right" by decide), if_pos trivial] at hb
    obtain rfl := (Option.some.inj hb).symm
    exact ⟨rfl, rfl, rfl⟩

theorem manipulator_projection_witness :
    extract_manipulator_data (some [[5, 6, 7]]) "foo" = none ∧
    ((⟨project [[5, 6, 7]] [0, 1, 2], project [[5, 6, 7]] [12, 13, 14],
        projectOne [[5, 6, 7]] 18, timeColumn 1⟩ : ManipulatorBundle).positions).map
      (fun p => p.getD 0 0) = projectOne [[5, 6, 7]] 0 :=
  ⟨(manipulator_projection [[5, 6, 7]] "foo").2.1 (by decide),
   ((manipulator_projection [[5, 6, 7]] "foo").2.2.1
     ⟨project [[5, 6, 7]] [0, 1, 2], project [[5, 6, 7]] [12, 13, 14],
       projectOne [[5, 6, 7]] 18, timeColumn 1⟩ rfl).2.2.2 0 (by decide)⟩

/-- C9: for every non-empty kinematics table of consistent width 76 and
each of the four manipulator roles, extraction succeeds and all four
sequences of the bundle have length equal to the table's row count, with
`time[i] = i / fps`. -/
theorem extraction_lengths (table : List (List ℚ)) (role : String)
    (hne : table ≠ []) (hw : ∀ row ∈ table, row.length = 76)
    (hrole : role ∈ (["master_left", "master_right", "slave_right", "slave_left"] : List String)) :
    ∃ b, extract_manipulator_data (some table) role = some b ∧
      b.positions.length = table.length ∧
      b.velocities.length = table.length ∧
      b.gripper.length = table.length ∧
      b.time.length = table.length ∧
      ∀ i, i < table.length → b.time.getD i 0 = (i : ℚ) / fps := by
  have hlen : ∀ cols : List Nat, (project table cols).length = table.length := by
    intro cols; simp [project]
  have hone : ∀ j : Nat, (projectOne table j).length = table.length := by
    intro j; simp [projectOne]
  have htime : (timeColumn table.length).length = table.length := by
    simp [timeColumn]
  have hgetD : ∀ i, i < table.length →
      (timeColumn table.length).getD i 0 = (i : ℚ) / fps :=
    fun i hi => timeColumn_getD table.length i hi
  simp only [List.mem_cons, List.not_mem_nil, or_false] at hrole
  rcases hrole with rfl | rfl | rfl | rfl
  · exact ⟨_, rfl, hlen _, hlen _, hone _, htime, hgetD⟩
  · exact ⟨_, rfl, hlen _, hlen _, hone _, htime, hgetD⟩
  · exact ⟨_, rfl, hlen _, hlen _, hone _, htime, hgetD⟩
  · exact ⟨_, rfl, hlen _, hlen _, hone _, htime, hgetD⟩

theorem extraction_lengths_witness :
    ∃ b, extract_manipulator_data (some [List.replicate 76 (0 : ℚ)]) "slave_left" = some b ∧
      b.positions.length = [List.replicate 76 (0 : ℚ)].length ∧
      b.velocities.length = [List.replicate 76 (0 : ℚ)].length ∧
      b.gripper.length = [List.replicate 76 (0 : ℚ)].length ∧
      b.time.length = [List.replicate 76 (0 : ℚ)].length ∧
      ∀ i, i < [List.replicate 76 (0 : ℚ)].length →
        b.time.getD i 0 = (i : ℚ) / fps :=
  extraction_lengths [List.replicate 76 (0 : ℚ)] "slave_left"
    (by decide) (by decide) (by decide)

/-- C7: the writer selector tries ffmpeg first, keeping the original
filename; when ffmpeg is unavailable or fails to construct it falls back
to pillow with the `.mp4` → `.gif` substituted filename; when neither
candidate works it reports no writer with the filename unchanged, and the
caller's save phase then returns failure with the figure closed instead
of crashing. -/
theorem writer_selection (env : WriterEnv) (name : String) :
    ("ffmpeg" ∈ env.available ∧ env.ffmpegConstructs = true →
      get_best_video_writer env name = (some VideoWriter.ffmpeg, name)) ∧
    (¬ ("ffmpeg" ∈ env.available ∧ env.ffmpegConstructs = true) →
      "pillow" ∈ env.available ∧ env.pillowConstructs = true →
      get_best_video_writer env name
        = (some VideoWriter.pillow, pyReplace name ".mp4" ".gif")) ∧
    (¬ ("ffmpeg" ∈ env.available ∧ env.ffmpegConstructs = true) →
      ¬ ("pillow" ∈ env.available ∧ env.pillowConstructs = true) →
      get_best_video_writer env name = (none, name) ∧
      ∀ s, videoSavePhase env name s = (false, true)) := by
  refine ⟨?_, ?_, ?_⟩
  · intro h
    simp [get_best_video_writer, h.1, h.2]
  · intro hn h
    simp only [get_best_video_writer]
    rw [if_neg (by simpa using hn), if_pos (by simpa using h)]
  · intro hn1 hn2
    have hw : get_best_video_writer env name = (none, name) := by
      simp only [get_best_video_writer]
      rw [if_neg (by simpa using hn1), if_neg (by simpa using hn2)]
    refine ⟨hw, fun s => ?_⟩
    simp [videoSavePhase, hw]

theorem writer_selection_witness :
    get_best_video_writer ⟨["pillow"], false, true⟩ "video.mp4"
      = (some VideoWriter.pillow, "video.gif") := by
  have h := (writer_selection ⟨["pillow"], false, true⟩ "video.mp4").2.1
    (by decide) (by decide)
  rw [h]
  decide

/-- C8: the orchestrated run fails with no render attempted when the
kinematics load fails; with kinematics loaded it succeeds iff at least
one of the master/slave renders succeeds (both are attempted); the
annotation input never influences the outcome; and the loading stage
itself succeeds iff the kinematics table is present. -/
theorem orchestration_success (kin : Option (List (List ℚ)))
    (annot : Option (List String)) (m s : Bool) :
    create_all_videos none annot m s = (false, 0) ∧
    (∀ t, kin = some t →
      ((create_all_videos kin annot m s).1 = true ↔ (m = true ∨ s = true)) ∧
      (create_all_videos kin annot m s).2 = 2) ∧
    (∀ annot2, create_all_videos kin annot m s = create_all_videos kin annot2 m s) ∧
    ((load_data kin annot).1 = true ↔ kin ≠ none) := by
  refine ⟨by simp [create_all_videos, load_data], ?_, ?_, ?_⟩
  · rintro t rfl
    constructor
    · cases m <;> cases s <;> simp [create_all_videos, load_data]
    · simp [create_all_videos, load_data]
  · intro annot2
    cases kin <;> simp [create_all_videos, load_data]
  · cases kin <;> simp [load_data]

theorem orchestration_success_witness :
    ((create_all_videos (some [[]]) none false true).1 = true
      ↔ (false = true ∨ true = true)) ∧
    (create_all_videos (some [[]]) none false true).2 = 2 :=
  (orchestration_success (some [[]]) none false true).2.1 [[]] rfl

end JIGSAWS
